import Mathlib

/-
Formal model of the Vellaperfumeria storefront core:
pricing, validation and order submission from src/components/CheckoutSummaryPage.tsx,
and variant selection from src/components/QuickViewModal.tsx.

Modelling conventions:
- JS numbers are modelled as rationals (prices, totals) or naturals (ids, quantities);
- JS strings are Lean Strings;
- nullable / optional values are Option;
- string-keyed JS Record objects are ordered association lists (keys unique,
  insertion order preserved), matching JS object key-iteration order;
- the order-creation RPC (createOrder, from ./api) is an external collaborator:
  its outcome is passed to the submission handler as an explicit argument.

The shapes of Product / CartItem / View come from ./types, which is not among
the sources; the fields below are exactly the ones the two components read,
as also described in the spec's data model.
-/

/-- One selectable option of a variant type: a value label and an optional
swatch color code (as used by QuickViewModal when rendering option buttons). -/
structure VariantOption where
  value : String
  colorCode : Option String
deriving DecidableEq

/-- Product record as read by the two components: id (a string such as
"wc-123" or "sim-7"), price, optional pre-discount price, a shipping-saver
flag and an optional variant map (variant-type name, ordered option list). -/
structure Product where
  id : String
  name : String
  brand : String
  price : ℚ
  regularPrice : Option ℚ
  imageUrl : String
  description : String
  isShippingSaver : Bool
  variants : Option (List (String × List VariantOption))
deriving DecidableEq

/-- A cart line: its own identity, a product reference and a quantity. -/
structure CartItem where
  cartItemId : String
  product : Product
  quantity : Nat
deriving DecidableEq

/-- CheckoutSummaryPage.tsx line 16. -/
def FREE_SHIPPING_THRESHOLD : ℚ := 35

/-- CheckoutSummaryPage.tsx line 17. -/
def SHIPPING_COST : ℚ := 6

/-- CheckoutSummaryPage.tsx lines 41-43: cartItems.reduce over price * quantity
starting from 0. -/
def subtotal (cartItems : List CartItem) : ℚ :=
  cartItems.foldl (fun t item => t + item.product.price * (item.quantity : ℚ)) 0

/-- CheckoutSummaryPage.tsx line 46: cartItems.some on isShippingSaver. -/
def hasShippingSaver (cartItems : List CartItem) : Bool :=
  cartItems.any fun item => item.product.isShippingSaver

/-- CheckoutSummaryPage.tsx lines 45-48: free shipping when a shipping-saver
item is in the cart or the subtotal reaches the threshold, else the flat fee. -/
def shippingCost (cartItems : List CartItem) : ℚ :=
  if hasShippingSaver cartItems ∨ subtotal cartItems ≥ FREE_SHIPPING_THRESHOLD then 0
  else SHIPPING_COST

/-- CheckoutSummaryPage.tsx line 50. -/
def total (cartItems : List CartItem) : ℚ :=
  subtotal cartItems + shippingCost cartItems

/-- The shipping form state (CheckoutSummaryPage.tsx lines 31-38). -/
structure ShippingForm where
  firstName : String
  lastName : String
  address : String
  city : String
  zip : String
  phone : String
deriving DecidableEq

/-- Whether the first list is a prefix of the second (on characters). -/
def isPreOf : List Char → List Char → Bool
  | [], _ => true
  | _ :: _, [] => false
  | p :: ps, c :: cs => p == c && isPreOf ps cs

/-- Remove the first occurrence of the pattern from the character list
(JS String.prototype.replace with a string pattern and empty replacement
replaces only the first occurrence, anywhere in the string). -/
def removeFirstL (pat : List Char) : List Char → List Char
  | [] => []
  | c :: cs =>
    if isPreOf pat (c :: cs) then (c :: cs).drop pat.length
    else c :: removeFirstL pat cs

/-- JS s.replace(pat, "") for a plain string pattern. -/
def jsReplaceFirst (s pat : String) : String :=
  ⟨removeFirstL pat.data s.data⟩

/-- Hexadecimal digit test (for JS parseInt's 0x prefix handling). -/
def isHexDigit (c : Char) : Bool :=
  c.isDigit || decide (97 ≤ c.toNat ∧ c.toNat ≤ 102) || decide (65 ≤ c.toNat ∧ c.toNat ≤ 70)

/-- Value of a hexadecimal digit. -/
def hexVal (c : Char) : Nat :=
  if c.isDigit then c.toNat - 48
  else if c.toNat ≤ 70 then c.toNat - 55
  else c.toNat - 87

/-- Fold a digit list into a number. -/
def digitsToNat (base : Nat) (ds : List Nat) : Nat :=
  ds.foldl (fun a d => a * base + d) 0

/-- The unsigned part of JS parseInt with no radix argument: a 0x/0X prefix
switches to hexadecimal, otherwise the longest leading run of decimal digits
is taken; no digits at all gives NaN (modelled as none). -/
def jsParseNatPart (cs : List Char) : Option Nat :=
  match cs with
  | '0' :: 'x' :: rest | '0' :: 'X' :: rest =>
    let hs := rest.takeWhile isHexDigit
    if hs = [] then none else some (digitsToNat 16 (hs.map hexVal))
  | _ =>
    let ds := cs.takeWhile Char.isDigit
    if ds = [] then none else some (digitsToNat 10 (ds.map fun c => c.toNat - 48))

/-- JS parseInt(s) with no radix: skip leading whitespace, optional sign,
then the unsigned part; NaN is modelled as none. -/
def jsParseInt (s : String) : Option Int :=
  let cs := s.data.dropWhile fun c => c == ' ' || c == '\t' || c == '\n' || c == '\r'
  match cs with
  | '-' :: rest => (jsParseNatPart rest).map fun n => -(n : Int)
  | '+' :: rest => (jsParseNatPart rest).map fun n => (n : Int)
  | _ => (jsParseNatPart cs).map fun n => (n : Int)

/-- Billing block of the order request (CheckoutSummaryPage.tsx lines 73-82). -/
structure OrderContact where
  first_name : String
  last_name : String
  address_1 : String
  city : String
  postcode : String
  country : String
  email : String
  phone : String
deriving DecidableEq

/-- Shipping block of the order request (CheckoutSummaryPage.tsx lines 83-90). -/
structure OrderShippingBlock where
  first_name : String
  last_name : String
  address_1 : String
  city : String
  postcode : String
  country : String
deriving DecidableEq

/-- One line item of the order request; product_id is none when parseInt
yields NaN (the source has no handling for that case). -/
structure OrderLineItem where
  product_id : Option Int
  quantity : Nat
deriving DecidableEq

/-- The order request built at submission time (CheckoutSummaryPage.tsx
lines 69-96). -/
structure OrderRequest where
  payment_method : String
  payment_method_title : String
  set_paid : Bool
  billing : OrderContact
  shipping : OrderShippingBlock
  line_items : List OrderLineItem
  customer_note : String
deriving DecidableEq

/-- CheckoutSummaryPage.tsx lines 91-94: product_id is parseInt of the id
string with the first "wc-" occurrence removed and then the first "sim-"
occurrence removed. -/
def lineItemOf (item : CartItem) : OrderLineItem :=
  { product_id := jsParseInt (jsReplaceFirst (jsReplaceFirst item.product.id "wc-") "sim-"),
    quantity := item.quantity }

/-- CheckoutSummaryPage.tsx lines 69-96: the orderData object. JS
(shipping.lastName || PLACEHOLDER) on strings picks the placeholder exactly
when lastName is the empty (falsy) string. -/
def orderData (email : String) (s : ShippingForm) (cartItems : List CartItem) : OrderRequest :=
  { payment_method := "stripe",
    payment_method_title := "Tarjeta de Crédito / Débito",
    set_paid := false,
    billing :=
      { first_name := s.firstName,
        last_name := if s.lastName = "" then "." else s.lastName,
        address_1 := s.address,
        city := s.city,
        postcode := s.zip,
        country := "ES",
        email := email,
        phone := s.phone },
    shipping :=
      { first_name := s.firstName,
        last_name := if s.lastName = "" then "." else s.lastName,
        address_1 := s.address,
        city := s.city,
        postcode := s.zip,
        country := "ES" },
    line_items := cartItems.map lineItemOf,
    customer_note := "Pedido realizado desde Vellaperfumeria App (Pink Edition)" }

/-- Response of the order-creation RPC; both fields may be missing in a
malformed response. -/
structure OrderResponse where
  id : Option Nat
  order_key : Option String
deriving DecidableEq

/-- Outcome of awaiting createOrder: a resolved value (possibly null,
modelled as none) or a rejection/exception. -/
inductive RpcResult where
  | ok (resp : Option OrderResponse)
  | error
deriving DecidableEq

/-- JS truthiness of result.id: present and nonzero. -/
def rIdTruthy (r : OrderResponse) : Bool :=
  match r.id with
  | some n => n != 0
  | none => false

/-- JS truthiness of (result && result.id). -/
def respTruthy : Option OrderResponse → Bool
  | some r => rIdTruthy r
  | none => false

/-- JS template interpolation of a possibly-undefined value. -/
def jsStr : Option String → String
  | some s => s
  | none => "undefined"

/-- CheckoutSummaryPage.tsx line 112: the hosted payment URL. -/
def paymentUrl (orderId : Nat) (orderKey : Option String) : String :=
  "https://vellaperfumeria.com/finalizar-compra/order-pay/" ++ toString orderId ++
    "/?pay_for_order=true&key=" ++ jsStr orderKey

/-- Observable outcome of one run of handleFinalizeOrder: the alert shown (if
any), whether the RPC was invoked and with which request, the navigation
target (if any), the final isProcessing flag, and the form fields afterwards
(the handler never writes them, so they pass through unchanged). -/
structure HandlerOutcome where
  alerted : Option String
  rpcCalled : Bool
  request : Option OrderRequest
  navigatedTo : Option String
  isProcessing : Bool
  email : String
  shipping : ShippingForm
deriving DecidableEq

/-- The soft-failure branch (CheckoutSummaryPage.tsx lines 116-120): alert and
setIsProcessing(false); reached when the resolved response is falsy or has a
falsy id. -/
def softFailOutcome (email : String) (s : ShippingForm) (cartItems : List CartItem) : HandlerOutcome :=
  { alerted := some "Error de conexión con la pasarela de pago. Se ha intentado registrar el pedido localmente.",
    rpcCalled := true,
    request := some (orderData email s cartItems),
    navigatedTo := none,
    isProcessing := false,
    email := email,
    shipping := s }

/-- CheckoutSummaryPage.tsx lines 58-127: the submission handler, as a
function of the form state (email, shipping), the cart, the isProcessing
value at entry, and the RPC outcome. -/
def handleFinalizeOrder (p0 : Bool) (email : String) (s : ShippingForm)
    (cartItems : List CartItem) (rpc : RpcResult) : HandlerOutcome :=
  if email = "" ∨ s.firstName = "" ∨ s.address = "" ∨ s.phone = "" then
    { alerted := some "Por favor, completa los datos de contacto y envío.",
      rpcCalled := false,
      request := none,
      navigatedTo := none,
      isProcessing := p0,
      email := email,
      shipping := s }
  else
    match rpc with
    | RpcResult.ok (some r) =>
      if rIdTruthy r then
        { alerted := none,
          rpcCalled := true,
          request := some (orderData email s cartItems),
          navigatedTo := some (paymentUrl (r.id.getD 0) r.order_key),
          isProcessing := true,
          email := email,
          shipping := s }
      else softFailOutcome email s cartItems
    | RpcResult.ok none => softFailOutcome email s cartItems
    | RpcResult.error =>
      { alerted := some "Hubo un error al conectar con el banco. Por favor, inténtalo de nuevo.",
        rpcCalled := true,
        request := some (orderData email s cartItems),
        navigatedTo := none,
        isProcessing := false,
        email := email,
        shipping := s }

/-- Navigation targets of onNavigate. The View union lives in ./types (not
among the sources); CheckoutSummaryPage only ever emits the product-listing
target (line 136). -/
inductive View where
  | home
  | products
  | checkout
deriving DecidableEq

/-- What CheckoutSummaryPage renders: the empty-cart recovery view with its
single navigation action (lines 130-144), or the checkout form with the
displayed total, shipping cost, field values and disabled-submit flag
(lines 147-258). -/
inductive RenderedPage where
  | emptyCart (action : View)
  | checkoutForm (shownTotal shownShipping : ℚ) (email : String) (s : ShippingForm)
      (submitDisabled : Bool)
deriving DecidableEq

/-- CheckoutSummaryPage.tsx lines 130-144 and 147-258: the empty-cart check
runs before the form is rendered. -/
def renderCheckoutPage (cartItems : List CartItem) (email : String) (s : ShippingForm)
    (isProcessing : Bool) : RenderedPage :=
  if cartItems.length = 0 then RenderedPage.emptyCart View.products
  else RenderedPage.checkoutForm (total cartItems) (shippingCost cartItems) email s isProcessing

/-- A variant selection: a string-keyed JS Record, as an ordered assoc list. -/
abbrev Selection := List (String × String)

/-- QuickViewModal.tsx lines 24-36 (body of the product effect): one default
entry per variant type, in key order, taking the first option's value and
skipping types whose option list is empty. -/
def initSelection (vm : List (String × List VariantOption)) : Selection :=
  vm.filterMap fun kv =>
    match kv.2 with
    | [] => none
    | o :: _ => some (kv.1, o.value)

/-- QuickViewModal.tsx lines 24-36: the effect that runs when a product is
presented. It ignores the previous selection entirely: with variants it
rebuilds the defaults, without variants it resets to null. -/
def presentProduct (_prev : Option Selection) (p : Product) : Option Selection :=
  match p.variants with
  | some vm => some (initSelection vm)
  | none => none

/-- JS spread-update on a Record: an existing key keeps its position and gets
the new value, a new key is appended at the end. -/
def objSet : Selection → String → String → Selection
  | [], k, v => [(k, v)]
  | kv :: rest, k, v =>
    if kv.1 = k then (k, v) :: rest
    else kv :: objSet rest k v

/-- QuickViewModal.tsx lines 38-40: setSelectedVariant(prev to spread of prev
with the given key set); spreading null yields the singleton record. -/
def handleVariantChange (prev : Option Selection) (t v : String) : Option Selection :=
  some (objSet (prev.getD []) t v)

/-- First value stored under a key in a selection. -/
def lookupSel (k : String) : Selection → Option String
  | [] => none
  | kv :: rest => if kv.1 = k then some kv.2 else lookupSel k rest

/-- A variant-change event the rendered modal can actually emit: its type and
value come from the product's rendered option lists (QuickViewModal.tsx
lines 82-111 render option buttons only for entries of product.variants). -/
def validEvent (p : Product) (e : String × String) : Prop :=
  ∃ vm opts o, p.variants = some vm ∧ (e.1, opts) ∈ vm ∧ o ∈ opts ∧ o.value = e.2

/-- The selection passed to onAddToCart (QuickViewModal.tsx line 116): the
current selectedVariant state, i.e. the initialization for the presented
product followed by the user's variant-change events. -/
def emittedSelection (p : Product) (events : List (String × String)) : Option Selection :=
  events.foldl (fun sel e => handleVariantChange sel e.1 e.2) (presentProduct none p)

theorem subtotal_foldl_aux (l : List CartItem) :
    ∀ a : ℚ,
      l.foldl (fun t item => t + item.product.price * (item.quantity : ℚ)) a
        = a + (l.map fun item => item.product.price * (item.quantity : ℚ)).sum := by
  induction l with
  | nil => intro a; simp
  | cons x xs ih => intro a; simp [List.foldl_cons, ih, add_assoc]

/-- C1: for every cart, the pricing derivation satisfies: subtotal is the sum
over all items of price times quantity; shippingCost is 0 exactly when some
item is a shipping saver or the subtotal reaches the 35-unit threshold and is
the flat 6.00 fee otherwise (never a third value); total is subtotal plus
shippingCost. -/
theorem C1_pricing_derivation (cart : List CartItem) :
    subtotal cart = (cart.map fun item => item.product.price * (item.quantity : ℚ)).sum ∧
    shippingCost cart =
      (if (∃ item ∈ cart, item.product.isShippingSaver = true) ∨
          subtotal cart ≥ FREE_SHIPPING_THRESHOLD then 0 else SHIPPING_COST) ∧
    (shippingCost cart = 0 ∨ shippingCost cart = SHIPPING_COST) ∧
    total cart = subtotal cart + shippingCost cart := by
  refine ⟨by simpa using subtotal_foldl_aux cart 0, ?_, ?_, rfl⟩
  · have hrw : (hasShippingSaver cart = true) ↔
        (∃ item ∈ cart, item.product.isShippingSaver = true) := by
      simp [hasShippingSaver, List.any_eq_true]
    unfold shippingCost
    exact if_congr (or_congr_left hrw) rfl rfl
  · unfold shippingCost
    split
    · exact Or.inl rfl
    · exact Or.inr rfl

/-- C10: applied to an empty cart the pricing derivation yields subtotal 0,
shippingCost equal to the flat 6.00 fee and total 6.00, and only the
empty-cart render short-circuit keeps this total from being shown: rendering
with an empty cart always yields the recovery view, for any form state. -/
theorem C10_empty_cart_pricing :
    subtotal [] = 0 ∧
    shippingCost [] = SHIPPING_COST ∧
    SHIPPING_COST = 6 ∧
    total [] = 6 ∧
    ∀ (email : String) (s : ShippingForm) (isProcessing : Bool),
      renderCheckoutPage [] email s isProcessing = RenderedPage.emptyCart View.products := by
  have h1 : subtotal ([] : List CartItem) = 0 := rfl
  have h2 : shippingCost ([] : List CartItem) = SHIPPING_COST := by
    unfold shippingCost
    rw [if_neg]
    rintro (hs | hge)
    · simp [hasShippingSaver] at hs
    · rw [h1] at hge
      norm_num [FREE_SHIPPING_THRESHOLD] at hge
  refine ⟨h1, h2, rfl, ?_, fun email s p => rfl⟩
  unfold total
  rw [h1, h2]
  norm_num [SHIPPING_COST]

/-- C9: whenever the cart has zero items, the checkout component renders only
the empty-cart recovery view, whose single action navigates to the product
listing, never the checkout form, regardless of form values or processing
state. -/
theorem C9_empty_cart_short_circuit (cart : List CartItem) (email : String)
    (s : ShippingForm) (isProcessing : Bool) (h : cart.length = 0) :
    renderCheckoutPage cart email s isProcessing = RenderedPage.emptyCart View.products := by
  unfold renderCheckoutPage
  rw [if_pos h]

theorem C9_empty_cart_short_circuit_witness :
    renderCheckoutPage [] "a@b.c" ⟨"Ana", "", "C/ Mayor 1", "Madrid", "28001", "600111222"⟩ true
      = RenderedPage.emptyCart View.products :=
  C9_empty_cart_short_circuit [] "a@b.c" ⟨"Ana", "", "C/ Mayor 1", "Madrid", "28001", "600111222"⟩ true rfl

theorem rpcCalled_of_valid (p0 : Bool) (email : String) (s : ShippingForm)
    (cartItems : List CartItem) (rpc : RpcResult)
    (h : ¬(email = "" ∨ s.firstName = "" ∨ s.address = "" ∨ s.phone = "")) :
    (handleFinalizeOrder p0 email s cartItems rpc).rpcCalled = true := by
  unfold handleFinalizeOrder
  rw [if_neg h]
  match rpc with
  | RpcResult.ok (some r) =>
    by_cases ht : rIdTruthy r = true
    · simp [ht]
    · simp [ht, softFailOutcome]
  | RpcResult.ok none => rfl
  | RpcResult.error => rfl

/-- C2: the submission handler performs the order-creation RPC iff email,
first name, address and phone are all non-empty; when any of the four is
empty the handler only shows a message: no RPC, no request, no navigation,
isProcessing and the form fields unchanged. City, postal code and last name
never influence the gate. -/
theorem C2_validation_gate (p0 : Bool) (email : String) (s : ShippingForm)
    (cartItems : List CartItem) (rpc : RpcResult) :
    ((handleFinalizeOrder p0 email s cartItems rpc).rpcCalled = true ↔
      (email ≠ "" ∧ s.firstName ≠ "" ∧ s.address ≠ "" ∧ s.phone ≠ "")) ∧
    ((email = "" ∨ s.firstName = "" ∨ s.address = "" ∨ s.phone = "") →
      handleFinalizeOrder p0 email s cartItems rpc =
        { alerted := some "Por favor, completa los datos de contacto y envío.",
          rpcCalled := false,
          request := none,
          navigatedTo := none,
          isProcessing := p0,
          email := email,
          shipping := s }) := by
  by_cases h : email = "" ∨ s.firstName = "" ∨ s.address = "" ∨ s.phone = ""
  · constructor
    · have hblocked : handleFinalizeOrder p0 email s cartItems rpc =
          { alerted := some "Por favor, completa los datos de contacto y envío.",
            rpcCalled := false,
            request := none,
            navigatedTo := none,
            isProcessing := p0,
            email := email,
            shipping := s } := by
        unfold handleFinalizeOrder
        rw [if_pos h]
      rw [hblocked]
      simp only [Bool.false_eq_true, false_iff]
      intro hc
      rcases h with h | h | h | h
      · exact hc.1 h
      · exact hc.2.1 h
      · exact hc.2.2.1 h
      · exact hc.2.2.2 h
    · intro _
      unfold handleFinalizeOrder
      rw [if_pos h]
  · constructor
    · rw [rpcCalled_of_valid p0 email s cartItems rpc h]
      push_neg at h
      simp [h]
    · intro hc
      exact absurd hc h

theorem C2_validation_gate_witness :
    handleFinalizeOrder false "" ⟨"", "", "", "", "", ""⟩ [] RpcResult.error =
      { alerted := some "Por favor, completa los datos de contacto y envío.",
        rpcCalled := false,
        request := none,
        navigatedTo := none,
        isProcessing := false,
        email := "",
        shipping := ⟨"", "", "", "", "", ""⟩ } :=
  (C2_validation_gate false "" ⟨"", "", "", "", "", ""⟩ [] RpcResult.error).2 (Or.inl rfl)

/-- C3: whenever the form passes the validation gate and the RPC response
carries an order id (a nonzero one, as the source tests its JS truthiness)
and an order key, the success path navigates to exactly the URL
order-pay/(id)/?pay_for_order=true&key=(key) under the storefront domain. -/
theorem C3_success_navigation (p0 : Bool) (email : String) (s : ShippingForm)
    (cartItems : List CartItem) (n : Nat) (k : String)
    (hv : ¬(email = "" ∨ s.firstName = "" ∨ s.address = "" ∨ s.phone = ""))
    (hn : n ≠ 0) :
    (handleFinalizeOrder p0 email s cartItems
        (RpcResult.ok (some { id := some n, order_key := some k }))).navigatedTo =
      some ("https://vellaperfumeria.com/finalizar-compra/order-pay/" ++ toString n ++
        "/?pay_for_order=true&key=" ++ k) := by
  unfold handleFinalizeOrder
  rw [if_neg hv]
  have ht : rIdTruthy { id := some n, order_key := some k } = true := by
    simp [rIdTruthy]
    exact hn
  simp [ht, paymentUrl, jsStr]

theorem C3_success_navigation_witness :
    (handleFinalizeOrder false "a@b.c" ⟨"Ana", "", "C/ Mayor 1", "Madrid", "28001", "600111222"⟩ []
        (RpcResult.ok (some { id := some 123, order_key := some "abc" }))).navigatedTo =
      some "https://vellaperfumeria.com/finalizar-compra/order-pay/123/?pay_for_order=true&key=abc" := by
  have h := C3_success_navigation false "a@b.c" ⟨"Ana", "", "C/ Mayor 1", "Madrid", "28001", "600111222"⟩
    [] 123 "abc" (by decide) (by decide)
  rw [h]
  rfl

/-- C4: on every non-success submission outcome, a resolved response without
a truthy id (soft failure) or a rejected RPC call (transport failure), the
handler sets isProcessing back to false, navigates nowhere, surfaces an alert
and leaves every form field unchanged. -/
theorem C4_failure_returns_to_editing (p0 : Bool) (email : String) (s : ShippingForm)
    (cartItems : List CartItem) (rpc : RpcResult)
    (hv : ¬(email = "" ∨ s.firstName = "" ∨ s.address = "" ∨ s.phone = ""))
    (hf : rpc = RpcResult.error ∨
      ∃ resp, rpc = RpcResult.ok resp ∧ respTruthy resp = false) :
    (handleFinalizeOrder p0 email s cartItems rpc).isProcessing = false ∧
    (handleFinalizeOrder p0 email s cartItems rpc).navigatedTo = none ∧
    (handleFinalizeOrder p0 email s cartItems rpc).alerted.isSome = true ∧
    (handleFinalizeOrder p0 email s cartItems rpc).email = email ∧
    (handleFinalizeOrder p0 email s cartItems rpc).shipping = s := by
  rcases hf with rfl | ⟨resp, rfl, hfalse⟩
  · unfold handleFinalizeOrder
    rw [if_neg hv]
    exact ⟨rfl, rfl, rfl, rfl, rfl⟩
  · unfold handleFinalizeOrder
    rw [if_neg hv]
    match resp, hfalse with
    | some r, hfalse =>
      have hr : rIdTruthy r = false := hfalse
      simp [hr, softFailOutcome]
    | none, _ =>
      simp [softFailOutcome]

theorem C4_failure_returns_to_editing_witness :
    (handleFinalizeOrder false "a@b.c" ⟨"Ana", "", "C/ Mayor 1", "Madrid", "28001", "600111222"⟩ []
        (RpcResult.ok none)).isProcessing = false ∧
    (handleFinalizeOrder false "a@b.c" ⟨"Ana", "", "C/ Mayor 1", "Madrid", "28001", "600111222"⟩ []
        (RpcResult.ok none)).navigatedTo = none ∧
    (handleFinalizeOrder false "a@b.c" ⟨"Ana", "", "C/ Mayor 1", "Madrid", "28001", "600111222"⟩ []
        (RpcResult.ok none)).alerted.isSome = true ∧
    (handleFinalizeOrder false "a@b.c" ⟨"Ana", "", "C/ Mayor 1", "Madrid", "28001", "600111222"⟩ []
        (RpcResult.ok none)).email = "a@b.c" ∧
    (handleFinalizeOrder false "a@b.c" ⟨"Ana", "", "C/ Mayor 1", "Madrid", "28001", "600111222"⟩ []
        (RpcResult.ok none)).shipping = ⟨"Ana", "", "C/ Mayor 1", "Madrid", "28001", "600111222"⟩ :=
  C4_failure_returns_to_editing false "a@b.c" ⟨"Ana", "", "C/ Mayor 1", "Madrid", "28001", "600111222"⟩
    [] (RpcResult.ok none) (by decide) (Or.inr ⟨none, rfl, rfl⟩)

/-- Drop the pattern from the front of the string when it is a prefix,
otherwise leave the string unchanged. -/
def stripPre (pat s : String) : String :=
  if isPreOf pat.data s.data then ⟨s.data.drop pat.data.length⟩ else s

/-- Claim-side definition, following the spec's words for C5: each line
item's product_id is the integer parsed from the item's product id string
after removing the "wc-" and "sim-" PREFIXES if present (to be compared with
the line items orderData builds, which remove the first occurrence of each
pattern anywhere in the string). -/
def specLineItems (cartItems : List CartItem) : List OrderLineItem :=
  cartItems.map fun item =>
    { product_id := jsParseInt (stripPre "sim-" (stripPre "wc-" item.product.id)),
      quantity := item.quantity }

/-- A product whose id string contains "wc-" in a non-prefix position. -/
def cexProduct : Product :=
  { id := "1wc-2", name := "p", brand := "b", price := 10, regularPrice := none,
    imageUrl := "", description := "", isShippingSaver := false, variants := none }

/-- A one-item cart built on cexProduct. -/
def cexCart : List CartItem :=
  [{ cartItemId := "c1", product := cexProduct, quantity := 1 }]

/-- C5 counterexample: on product id "1wc-2" the code removes the first "wc-"
occurrence anywhere (yielding "12", parsed as 12) while the claim's
prefix-removal reading leaves "1wc-2" (parsed by parseInt as 1), so the
built line_items differ from the claim's. -/
theorem C5_line_items_counterexample :
    (orderData "a@b.c" ⟨"Ana", "", "C/ Mayor 1", "Madrid", "28001", "600111222"⟩ cexCart).line_items
        = [{ product_id := some 12, quantity := 1 }] ∧
    specLineItems cexCart = [{ product_id := some 1, quantity := 1 }] ∧
    (orderData "a@b.c" ⟨"Ana", "", "C/ Mayor 1", "Madrid", "28001", "600111222"⟩ cexCart).line_items
        ≠ specLineItems cexCart := by
  refine ⟨?_, ?_, ?_⟩ <;> decide

/-- C5 (amended): the constructed order request is a pure projection with
country "ES" in both blocks, last_name the entered one or the "." placeholder
when empty (in both blocks), set_paid false, and line_items the cart mapped
in order, each product_id being parseInt of the id string after removing the
first occurrence of "wc-" and then the first occurrence of "sim-" (this
coincides with prefix removal whenever those substrings occur only as
prefixes). -/
theorem C5_order_request_projection (email : String) (s : ShippingForm)
    (cartItems : List CartItem) :
    (orderData email s cartItems).billing.country = "ES" ∧
    (orderData email s cartItems).shipping.country = "ES" ∧
    (orderData email s cartItems).billing.last_name
        = (if s.lastName = "" then "." else s.lastName) ∧
    (orderData email s cartItems).shipping.last_name
        = (if s.lastName = "" then "." else s.lastName) ∧
    (orderData email s cartItems).set_paid = false ∧
    (orderData email s cartItems).line_items = cartItems.map fun item =>
      { product_id := jsParseInt (jsReplaceFirst (jsReplaceFirst item.product.id "wc-") "sim-"),
        quantity := item.quantity } :=
  ⟨rfl, rfl, rfl, rfl, rfl, rfl⟩

/-- A product whose single variant type has an empty option list. -/
def emptyOptionsProduct : Product :=
  { id := "wc-3", name := "p", brand := "b", price := 10, regularPrice := none,
    imageUrl := "", description := "", isShippingSaver := false,
    variants := some [("A", [])] }

/-- A product with a present-but-empty variant map (the JS value is the empty
object, which is truthy). -/
def emptyVariantsProduct : Product :=
  { id := "wc-4", name := "p", brand := "b", price := 10, regularPrice := none,
    imageUrl := "", description := "", isShippingSaver := false,
    variants := some [] }

/-- A product with variants A: a1, a2 and B: b1 (the spec's running example). -/
def demoProduct : Product :=
  { id := "wc-5", name := "p", brand := "b", price := 10, regularPrice := none,
    imageUrl := "", description := "", isShippingSaver := false,
    variants := some
      [("A", [{ value := "a1", colorCode := none }, { value := "a2", colorCode := none }]),
       ("B", [{ value := "b1", colorCode := some "#fff" }])] }

/-- A mixed variant map: type "A" has no options, type "B" has one. -/
def mixedProduct : Product :=
  { id := "wc-6", name := "p", brand := "b", price := 10, regularPrice := none,
    imageUrl := "", description := "", isShippingSaver := false,
    variants := some [("A", []), ("B", [{ value := "b1", colorCode := none }])] }

theorem initSelection_eq_filter_map (vm : List (String × List VariantOption)) :
    initSelection vm
      = (vm.filter fun kv => !kv.2.isEmpty).map
          fun kv => (kv.1, (kv.2.headD { value := "", colorCode := none }).value) := by
  induction vm with
  | nil => rfl
  | cons kv rest ih =>
    cases hkv : kv.2 with
    | nil =>
      have h1 : initSelection (kv :: rest) = initSelection rest := by
        simp [initSelection, List.filterMap_cons, hkv]
      have h2 : (kv :: rest).filter (fun kv2 => !kv2.2.isEmpty)
          = rest.filter (fun kv2 => !kv2.2.isEmpty) := by
        simp [List.filter_cons, hkv]
      rw [h1, h2]
      exact ih
    | cons o os =>
      have h1 : initSelection (kv :: rest) = (kv.1, o.value) :: initSelection rest := by
        simp [initSelection, List.filterMap_cons, hkv]
      have h2 : (kv :: rest).filter (fun kv2 => !kv2.2.isEmpty)
          = kv :: rest.filter (fun kv2 => !kv2.2.isEmpty) := by
        simp [List.filter_cons, hkv]
      rw [h1, h2, List.map_cons, ih, hkv]
      simp [List.headD_cons]

/-- C6 counterexample: for a product whose variant map contains key "A" with
an empty option sequence, initialization yields a selection that does not map
"A" at all (the source skips variant types with no options), contradicting
the claim that every variant-type key present in the map is mapped. -/
theorem C6_init_counterexample :
    presentProduct none emptyOptionsProduct = some [] ∧
    emptyOptionsProduct.variants = some [("A", [])] ∧
    lookupSel "A" ((presentProduct none emptyOptionsProduct).getD []) = none := by
  refine ⟨?_, ?_, ?_⟩ <;> decide

/-- C6 (amended): after initialization for any product and any previously
presented selection, a product without variants gets the null selection, and
a product with an arbitrary variant map gets exactly one entry per
variant-type key whose option sequence is non-empty, in key order, holding
that type's first option value; variant types with an empty option sequence
are omitted, and no keys from any previous product remain. -/
theorem C6_default_selection (prev : Option Selection) (p : Product) :
    (p.variants = none → presentProduct prev p = none) ∧
    (∀ vm, p.variants = some vm →
      presentProduct prev p
        = some ((vm.filter fun kv => !kv.2.isEmpty).map
            fun kv => (kv.1, (kv.2.headD { value := "", colorCode := none }).value))) := by
  constructor
  · intro h
    simp [presentProduct, h]
  · intro vm h
    simp only [presentProduct, h]
    exact congrArg some (initSelection_eq_filter_map vm)

theorem C6_default_selection_witness :
    presentProduct none demoProduct = some [("A", "a1"), ("B", "b1")] ∧
    presentProduct none mixedProduct = some [("B", "b1")] := by
  constructor
  · have h := (C6_default_selection none demoProduct).2
      [("A", [{ value := "a1", colorCode := none }, { value := "a2", colorCode := none }]),
       ("B", [{ value := "b1", colorCode := some "#fff" }])] rfl
    rw [h]
    rfl
  · have h := (C6_default_selection none mixedProduct).2
      [("A", []), ("B", [{ value := "b1", colorCode := none }])] rfl
    rw [h]
    rfl

theorem objSet_lookup_self (m : Selection) (k v : String) :
    lookupSel k (objSet m k v) = some v := by
  induction m with
  | nil => simp [objSet, lookupSel]
  | cons kv rest ih =>
    by_cases h : kv.1 = k
    · simp [objSet, h, lookupSel]
    · simp [objSet, h, lookupSel, ih]

theorem objSet_lookup_other (m : Selection) (k v k2 : String) (h : k2 ≠ k) :
    lookupSel k2 (objSet m k v) = lookupSel k2 m := by
  induction m with
  | nil => simp [objSet, lookupSel, Ne.symm h]
  | cons kv rest ih =>
    by_cases hk : kv.1 = k
    · simp [objSet, hk, lookupSel, Ne.symm h]
    · simp only [objSet, if_neg hk]
      by_cases hk2 : kv.1 = k2
      · simp [lookupSel, hk2]
      · simp [lookupSel, hk2, ih]

theorem objSet_self_noop (m : Selection) (k v : String) (h : lookupSel k m = some v) :
    objSet m k v = m := by
  induction m with
  | nil => simp [lookupSel] at h
  | cons kv rest ih =>
    obtain ⟨a, b⟩ := kv
    by_cases hk : a = k
    · subst hk
      have hb : b = v := by simpa [lookupSel] using h
      subst hb
      simp [objSet]
    · have h2 : lookupSel k rest = some v := by simpa [lookupSel, hk] using h
      simp [objSet, hk, ih h2]

/-- C7: handleVariantChange sets the given variant-type key to the given
value and leaves the value of every other key unchanged (a merge); selecting
B: b1 after A: a2 on the default selection yields exactly A: a2, B: b1; and
re-selecting the value already stored for a key leaves the selection state
equal to what it was. -/
theorem C7_partial_update (prev : Option Selection) (k v : String) :
    lookupSel k ((handleVariantChange prev k v).getD []) = some v ∧
    (∀ k2, k2 ≠ k →
      lookupSel k2 ((handleVariantChange prev k v).getD []) = lookupSel k2 (prev.getD [])) ∧
    (∀ m, prev = some m → lookupSel k m = some v → handleVariantChange prev k v = prev) ∧
    handleVariantChange (handleVariantChange (some [("A", "a1"), ("B", "b1")]) "A" "a2") "B" "b1"
      = some [("A", "a2"), ("B", "b1")] := by
  refine ⟨?_, ?_, ?_, by decide⟩
  · simpa [handleVariantChange] using objSet_lookup_self (prev.getD []) k v
  · intro k2 hk2
    simpa [handleVariantChange] using objSet_lookup_other (prev.getD []) k v k2 hk2
  · intro m hm hv2
    subst hm
    simp [handleVariantChange, objSet_self_noop m k v hv2]

theorem C7_partial_update_witness :
    handleVariantChange (some [("A", "a1")]) "A" "a1" = some [("A", "a1")] :=
  (C7_partial_update (some [("A", "a1")]) "A" "a1").2.2.1 [("A", "a1")] rfl (by decide)

theorem objSet_ne_nil (m : Selection) (k v : String) : objSet m k v ≠ [] := by
  cases m with
  | nil => simp [objSet]
  | cons kv rest => by_cases h : kv.1 = k <;> simp [objSet, h]

theorem foldHVC_some_ne_nil (events : List (String × String)) :
    ∀ s : Option Selection, (∃ l, s = some l ∧ l ≠ []) →
      ∃ l, events.foldl (fun sel e => handleVariantChange sel e.1 e.2) s = some l ∧ l ≠ [] := by
  induction events with
  | nil =>
    intro s hs
    simpa using hs
  | cons e rest ih =>
    intro s _
    simp only [List.foldl_cons]
    exact ih (handleVariantChange s e.1 e.2)
      ⟨objSet (s.getD []) e.1 e.2, rfl, objSet_ne_nil _ _ _⟩

theorem initSelection_ne_nil (vm : List (String × List VariantOption))
    (h : ∃ kv ∈ vm, kv.2 ≠ []) : initSelection vm ≠ [] := by
  induction vm with
  | nil => simp at h
  | cons kv rest ih =>
    obtain ⟨kv2, hmem, hne⟩ := h
    rcases List.mem_cons.mp hmem with heq | hmem2
    · subst heq
      cases hkv : kv2.2 with
      | nil => exact absurd hkv hne
      | cons o os => simp [initSelection, hkv]
    · cases hkv : kv.2 with
      | nil => simpa [initSelection, hkv] using ih ⟨kv2, hmem2, hne⟩
      | cons o os => simp [initSelection, hkv]

/-- C8 counterexample: a present-but-empty variant map (the truthy empty JS
object) makes the initialization produce a present-but-empty selection, which
is what add-to-cart then emits, contradicting the claim that a product with a
present variant map never emits an empty-but-present mapping. -/
theorem C8_emitted_counterexample :
    emptyVariantsProduct.variants = some [] ∧
    emittedSelection emptyVariantsProduct [] = some [] := by
  refine ⟨?_, ?_⟩ <;> decide

/-- C8 (amended): the selection emitted by add-to-cart (the initialization
for the product followed by any rendered variant-change events) is null when
the product has no variant map, and is present and non-empty whenever the
variant map is present and at least one variant type has a non-empty option
list. -/
theorem C8_emitted_selection (p : Product) (events : List (String × String))
    (hval : ∀ e ∈ events, validEvent p e) :
    (p.variants = none → emittedSelection p events = none) ∧
    (∀ vm, p.variants = some vm → (∃ kv ∈ vm, kv.2 ≠ []) →
      ∃ sel, emittedSelection p events = some sel ∧ sel ≠ []) := by
  constructor
  · intro hnone
    have hev : events = [] := by
      cases events with
      | nil => rfl
      | cons e rest =>
        exfalso
        obtain ⟨vm, opts, o, hvar, _⟩ := hval e (List.mem_cons_self _ _)
        rw [hnone] at hvar
        exact Option.noConfusion hvar
    subst hev
    simp [emittedSelection, presentProduct, hnone]
  · intro vm hvm hex
    have h0 : ∃ l, presentProduct none p = some l ∧ l ≠ [] :=
      ⟨initSelection vm, by simp [presentProduct, hvm], initSelection_ne_nil vm hex⟩
    simpa [emittedSelection] using foldHVC_some_ne_nil events (presentProduct none p) h0

theorem C8_emitted_selection_witness :
    ∃ sel, emittedSelection demoProduct [] = some sel ∧ sel ≠ [] :=
  (C8_emitted_selection demoProduct [] (by simp)).2
    [("A", [{ value := "a1", colorCode := none }, { value := "a2", colorCode := none }]),
     ("B", [{ value := "b1", colorCode := some "#fff" }])] rfl
    ⟨("A", [{ value := "a1", colorCode := none }, { value := "a2", colorCode := none }]),
      by simp, by simp⟩
